import Mathlib

/-!
Shallow embedding of the live acquisition session of
`live_Lucid_PHX004_MC.py`: connection with bounded retries and ping
probes, parameter snapshot and restore, the fixed device configuration
with its exposure clamp, the raw-buffer decode with binning replication,
and the acquire-decode-render loop with its try/finally teardown.
-/

namespace LucidLive

/-- Values held by camera parameter nodes: enumeration strings, booleans,
or numeric values. -/
inductive Value
  | vstr (s : String)
  | vbool (b : Bool)
  | vnum (q : ℚ)
deriving DecidableEq

/-- The EXP_TIME_US field of the Settings class. -/
def EXP_TIME_US : ℚ := 20000

/-- The FPS field of the Settings class: 1 / (EXP_TIME_US * 1e-6) * 0.9. -/
def FPS : ℚ := 1 / (EXP_TIME_US * (1 / 1000000)) * (9 / 10)

/-- The BINNING field of the Settings class. -/
def BINNING : ℕ := 4

/-- The BYTES_PER_PIXEL field of the Settings class. -/
def BYTES_PER_PIXEL : ℕ := 2

/-- The PIXEL_FORMAT field of the Settings class. -/
def PIXEL_FORMAT : String := "Mono12"

/-- The fixed parameter list selected_parameters of setup (lines
162-165). -/
def selected_parameters : List String :=
  ["PixelFormat", "ExposureAuto", "ExposureTime",
   "AcquisitionFrameRateEnable", "AcquisitionFrameRate",
   "TriggerSelector", "TriggerMode", "TriggerSource",
   "BinningHorizontal", "BinningVertical"]

/-- Observable actions performed during a session run. -/
inductive Event
  | discover
  | probe
  | readParam (p : String)
  | readBounds (p : String)
  | writeParam (p : String) (v : Value)
  | getBuffer
  | requeueBuffer
  | decodeStep
  | render
  | stopStream
  | restoreCall
  | restoreWrite (p : String)
  | destroyWindows
  | disconnect
deriving DecidableEq

/-- Device parameter state: the value of every parameter name. -/
def DState : Type := String → Value

/-- One parameter write, nodes[p].value = v. -/
def setP (s : DState) (p : String) (v : Value) : DState :=
  fun q => if q = p then v else s q

/-- The exposure clamp of setup (lines 199-207): a request above the
device maximum is replaced by the maximum, below the minimum by the
minimum, otherwise applied unchanged. -/
def clampExposure (req emin emax : ℚ) : ℚ :=
  if emax < req then emax else if req < emin then emin else req

/-- True exactly when the out-of-bounds warning of setup line 199 is
printed. -/
def exposureWarning (req emin emax : ℚ) : Bool :=
  decide (emax < req) || decide (req < emin)

/-- Parameter writes performed by setup after the snapshot loop, in
source order: the nodemap writes of lines 181-222 followed by the
tl_stream_nodemap writes of lines 229-231.  The ExposureTime value is
the clamped request; emin and emax are the device-reported bounds. -/
def setupWritesRest (emin emax : ℚ) : List (String × Value) :=
  [("AcquisitionFrameRateEnable", Value.vbool true),
   ("AcquisitionFrameRate", Value.vnum FPS),
   ("ExposureAuto", Value.vstr "Off"),
   ("ExposureTime", Value.vnum (clampExposure EXP_TIME_US emin emax)),
   ("TriggerSelector", Value.vstr "FrameStart"),
   ("TriggerMode", Value.vstr "Off"),
   ("BinningHorizontal", Value.vnum (BINNING : ℚ)),
   ("BinningVertical", Value.vnum (BINNING : ℚ)),
   ("StreamBufferHandlingMode", Value.vstr "NewestOnly"),
   ("StreamAutoNegotiatePacketSize", Value.vbool true),
   ("StreamPacketResendEnable", Value.vbool true)]

/-- Parameter names written by setup, in order: PixelFormat (line 172,
before the snapshot loop) and then the post-capture writes. -/
def setupWriteNames (emin emax : ℚ) : List String :=
  "PixelFormat" :: (setupWritesRest emin emax).map Prod.fst

/-- Full event trace of setup: the PixelFormat write of line 172
precedes the snapshot reads of lines 176-177; then the remaining
configuration with its diagnostic value and bounds reads, in source
order. -/
def setupTraceOf (emin emax : ℚ) : List Event :=
  Event.writeParam "PixelFormat" (Value.vstr PIXEL_FORMAT)
    :: (selected_parameters.map Event.readParam
      ++ [Event.writeParam "AcquisitionFrameRateEnable" (Value.vbool true),
          Event.writeParam "AcquisitionFrameRate" (Value.vnum FPS),
          Event.readBounds "AcquisitionFrameRate",
          Event.readParam "AcquisitionFrameRate",
          Event.writeParam "ExposureAuto" (Value.vstr "Off"),
          Event.readBounds "ExposureTime",
          Event.writeParam "ExposureTime"
            (Value.vnum (clampExposure EXP_TIME_US emin emax)),
          Event.readParam "ExposureTime",
          Event.writeParam "TriggerSelector" (Value.vstr "FrameStart"),
          Event.writeParam "TriggerMode" (Value.vstr "Off"),
          Event.readParam "TriggerSelector",
          Event.readParam "TriggerMode",
          Event.writeParam "BinningHorizontal" (Value.vnum (BINNING : ℚ)),
          Event.writeParam "BinningVertical" (Value.vnum (BINNING : ℚ)),
          Event.readParam "BinningHorizontal",
          Event.readParam "BinningVertical",
          Event.writeParam "StreamBufferHandlingMode"
            (Value.vstr "NewestOnly"),
          Event.writeParam "StreamAutoNegotiatePacketSize"
            (Value.vbool true),
          Event.writeParam "StreamPacketResendEnable" (Value.vbool true)])

/-- Device state at the moment the snapshot loop runs: the PixelFormat
write of line 172 has already happened. -/
def setupStateAtCapture (s0 : DState) : DState :=
  setP s0 "PixelFormat" (Value.vstr PIXEL_FORMAT)

/-- The initial_settings dictionary of setup: each selected parameter
read exactly once, in list order, from the state at capture time. -/
def initial_settings (s0 : DState) : List (String × Value) :=
  selected_parameters.map (fun p => (p, setupStateAtCapture s0 p))

/-- Apply a list of parameter writes in order. -/
def applyWrites (s : DState) (ws : List (String × Value)) : DState :=
  ws.foldl (fun st pv => setP st pv.1 pv.2) s

/-- Device state when setup returns. -/
def setupFinalState (s0 : DState) (emin emax : ℚ) : DState :=
  applyWrites (setupStateAtCapture s0) (setupWritesRest emin emax)

/-- restore_initial_settings in the run where every write succeeds: each
captured value is written back in the fixed parameter order. -/
def restore_initial_settings (s : DState) (snap : List (String × Value)) :
    DState :=
  applyWrites s snap

/-- Device state after setup followed by restore_initial_settings. -/
def roundTripState (s0 : DState) (emin emax : ℚ) : DState :=
  restore_initial_settings (setupFinalState s0 emin emax)
    (initial_settings s0)

/-- restore_initial_settings with per-write outcomes, oks i telling
whether the i-th write succeeds.  The for-loop of lines 247-248 has no
handler, so the first failing write raises and aborts the remaining
writes.  Returns the parameters whose writes were attempted and whether
the whole restore completed. -/
def restoreWritesAttempted :
    List String → (ℕ → Bool) → ℕ → List String × Bool
  | [], _, _ => ([], true)
  | p :: ps, oks, i =>
    if oks i then
      let r := restoreWritesAttempted ps oks (i + 1)
      (p :: r.1, r.2)
    else ([p], false)

/-- Events of the finally block of main (lines 110-115): stop_stream,
restore_initial_settings, cv2.destroyAllWindows, system.destroy_device.
An exception raised inside restore propagates out of the finally block,
so the destroy steps run only when every restore write succeeds. -/
def teardownTrace (roks : ℕ → Bool) : List Event :=
  let r := restoreWritesAttempted selected_parameters roks 0
  Event.stopStream :: Event.restoreCall :: (r.1.map Event.restoreWrite
    ++ (if r.2 then [Event.destroyWindows, Event.disconnect] else []))

/-- Outcome of one pass of the acquisition while-loop. -/
inductive LoopStep
  | frame (esc : Bool)
  | acqFail
  | interrupted
deriving DecidableEq

/-- Why the while-loop ended. -/
inductive StopReason
  | escKey
  | acqError
  | interrupt
deriving DecidableEq

/-- Events of one completed loop iteration (lines 66-99). -/
def iterTrace : List Event :=
  [Event.getBuffer, Event.requeueBuffer, Event.decodeStep, Event.render]

/-- The while True loop of main, driven by fuel.  frame true: the
iteration completes and the ESC check of lines 106-108 breaks.
frame false: the iteration completes and the loop continues.  acqFail:
get_buffer raises; the loop body has no handler, so the exception ends
the loop.  interrupted: an external interrupt arrives before the
iteration.  none: fuel exhausted with the loop still running. -/
def runLoopAux (steps : ℕ → LoopStep) :
    ℕ → ℕ → Option (List Event × StopReason)
  | 0, _ => none
  | f + 1, i =>
    match steps i with
    | LoopStep.frame true => some (iterTrace, StopReason.escKey)
    | LoopStep.frame false =>
      (runLoopAux steps f (i + 1)).map (fun tr => (iterTrace ++ tr.1, tr.2))
    | LoopStep.acqFail => some ([Event.getBuffer], StopReason.acqError)
    | LoopStep.interrupted => some ([], StopReason.interrupt)

/-- The while True loop started on iteration 0. -/
def runLoop (steps : ℕ → LoopStep) (fuel : ℕ) :
    Option (List Event × StopReason) :=
  runLoopAux steps fuel 0

/-- The failure create_devices_with_tries_ip raises after exhausting its
attempts (line 146). -/
inductive ConnectError
  | NoDeviceFoundError
deriving DecidableEq

/-- create_devices_with_tries_ip with the given number of tries left:
each failed discovery is followed by two ping_host calls (lines
134-135); success returns at once; exhaustion raises.  disc i tells
whether system.create_device returns a non-empty list on attempt i. -/
def connectAux (disc : ℕ → Bool) :
    ℕ → ℕ → List Event × Except ConnectError Unit
  | 0, _ => ([], Except.error ConnectError.NoDeviceFoundError)
  | f + 1, i =>
    if disc i then ([Event.discover], Except.ok ())
    else
      let r := connectAux disc f (i + 1)
      (Event.discover :: Event.probe :: Event.probe :: r.1, r.2)

/-- create_devices_with_tries_ip with its fixed tries_max = 6. -/
def create_devices_with_tries_ip (disc : ℕ → Bool) :
    List Event × Except ConnectError Unit :=
  connectAux disc 6 0

/-- Trace semantics of main.  setupFailAt = some k: setup (called at
line 54, before the try block of line 60) raises after its k-th event,
so the exception propagates with no teardown.  Otherwise the loop runs
inside try/finally and the finally block appends the teardown trace.
A none result means the fuel ran out with the loop still running. -/
def mainRun (disc : ℕ → Bool) (setupFailAt : Option ℕ) (emin emax : ℚ)
    (steps : ℕ → LoopStep) (fuel : ℕ) (roks : ℕ → Bool) :
    Option (List Event) :=
  match create_devices_with_tries_ip disc with
  | (ct, Except.error _) => some ct
  | (ct, Except.ok _) =>
    match setupFailAt with
    | some k => some (ct ++ (setupTraceOf emin emax).take k)
    | none =>
      match runLoop steps fuel with
      | none => none
      | some lt =>
        some (ct ++ setupTraceOf emin emax ++ lt.1 ++ teardownTrace roks)

/-- Little-endian cell value of B bytes at offset off of memory mem: the
uint16 view of the byte pair when B = 2. -/
def cellVal : ℕ → (ℕ → ℕ) → ℕ → ℕ
  | 0, _, _ => 0
  | b + 1, mem, off => mem off + 256 * cellVal b mem (off + 1)

/-- The H x W grid read row-major from memory: the np.ndarray built over
the ctypes view followed by view(np.uint16).reshape(H, W) of lines
73-81. -/
def rawGrid (W H B : ℕ) (mem : ℕ → ℕ) : List (List ℕ) :=
  (List.range H).map (fun i =>
    (List.range W).map (fun j => cellVal B mem ((i * W + j) * B)))

/-- np.repeat: each element replicated K times, in order. -/
def repeatK {α : Type} (K : ℕ) (xs : List α) : List α :=
  xs.flatMap (fun x => List.replicate K x)

/-- np.repeat along axis 0 and then along axis 1 (line 87). -/
def upscale (K : ℕ) (g : List (List ℕ)) : List (List ℕ) :=
  (repeatK K g).map (repeatK K)

/-- The decode step of the loop body (lines 73-87): reinterpret the
bytes at the buffer address, then replicate pixels when the binning
factor exceeds 1. -/
def decodeGrid (W H B K : ℕ) (mem : ℕ → ℕ) : List (List ℕ) :=
  if 1 < K then upscale K (rawGrid W H B mem) else rawGrid W H B mem

/-- A raw buffer item: declared width and height, the actual byte length
of its payload, and the process memory readable at its address
(ctypes from_address reads past dataLen bytes when asked to). -/
structure RawItem where
  width : ℕ
  height : ℕ
  dataLen : ℕ
  mem : ℕ → ℕ

/-- The loop's decode applied to an item: item.width and item.height are
trusted and dataLen is never consulted (the length computation of line
70 is commented out in the source). -/
def decodeItem (B K : ℕ) (it : RawItem) : List (List ℕ) :=
  decodeGrid it.width it.height B K it.mem

/-- Example initial device state whose PixelFormat is Mono8. -/
def exState : DState := fun _ => Value.vstr "Mono8"

/-- Example raw item: width 2, height 1, a 3-byte payload (one byte
short of width * height * BYTES_PER_PIXEL = 4), with memory holding byte
n + 1 at offset n. -/
def exItem : RawItem := ⟨2, 1, 3, fun n => n + 1⟩

/-- Concrete session trace for a run that connects at once, completes
one loop iteration ending with the ESC key, and tears down with every
restore write succeeding. -/
def trGood : List Event :=
  [Event.discover] ++ setupTraceOf 0 1000000 ++ iterTrace
    ++ teardownTrace (fun _ => true)

/-- Concrete session trace for a run that connects at once, completes
one loop iteration ending with the ESC key, and whose first restore
write fails: restore is entered but the exception propagates out of the
finally block before system.destroy_device runs. -/
def trBad : List Event :=
  [Event.discover] ++ setupTraceOf 0 1000000 ++ iterTrace
    ++ [Event.stopStream, Event.restoreCall,
        Event.restoreWrite "PixelFormat"]

theorem repeatK_cons {α : Type} (K : ℕ) (x : α) (t : List α) :
    repeatK K (x :: t) = List.replicate K x ++ repeatK K t := by
  simp [repeatK]

theorem repeatK_length {α : Type} (K : ℕ) (xs : List α) :
    (repeatK K xs).length = xs.length * K := by
  induction xs with
  | nil => simp [repeatK]
  | cons x t ih =>
    rw [repeatK_cons]
    simp only [List.length_append, List.length_replicate, ih,
      List.length_cons]
    ring

theorem getD_map_of_lt {α β : Type} (f : α → β) (l : List α) (dα : α)
    (dβ : β) (i : ℕ) (h : i < l.length) :
    (l.map f).getD i dβ = f (l.getD i dα) := by
  rw [List.getD_eq_getElem _ _ (by simpa using h), List.getElem_map,
    List.getD_eq_getElem _ _ h]

theorem repeatK_getD {α : Type} (K : ℕ) (xs : List α) (d : α) :
    ∀ i, i < xs.length * K →
      (repeatK K xs).getD i d = xs.getD (i / K) d := by
  induction xs with
  | nil => intro i hi; simp at hi
  | cons x t ih =>
    intro i hi
    have hK : 0 < K := by
      rcases Nat.eq_zero_or_pos K with h0 | h0
      · rw [h0] at hi; simp at hi
      · exact h0
    rw [repeatK_cons]
    by_cases hiK : i < K
    · rw [List.getD_append _ _ _ _ (by simpa using hiK),
        Nat.div_eq_of_lt hiK, List.getD_cons_zero,
        List.getD_eq_getElem _ _ (by simpa using hiK),
        List.getElem_replicate]
    · push_neg at hiK
      rw [List.getD_append_right _ _ _ _ (by simpa using hiK)]
      simp only [List.length_replicate]
      rw [ih (i - K) (by
        rw [List.length_cons, Nat.succ_mul] at hi; omega)]
      rw [Nat.div_eq_sub_div hK hiK, List.getD_cons_succ]

theorem rawGrid_length (W H B : ℕ) (mem : ℕ → ℕ) :
    (rawGrid W H B mem).length = H := by
  simp [rawGrid]

theorem rawGrid_row_length (W H B : ℕ) (mem : ℕ → ℕ) :
    ∀ row ∈ rawGrid W H B mem, row.length = W := by
  intro row hrow
  simp only [rawGrid, List.mem_map] at hrow
  obtain ⟨i, _, rfl⟩ := hrow
  simp

theorem rawGrid_getD (W H B : ℕ) (mem : ℕ → ℕ) (i j : ℕ)
    (hi : i < H) (hj : j < W) :
    ((rawGrid W H B mem).getD i []).getD j 0 =
      cellVal B mem ((i * W + j) * B) := by
  have h1 : (rawGrid W H B mem).getD i [] =
      (List.range W).map (fun j => cellVal B mem ((i * W + j) * B)) := by
    rw [List.getD_eq_getElem _ _ (by simpa [rawGrid] using hi)]
    simp [rawGrid]
  rw [h1, List.getD_eq_getElem _ _ (by simpa using hj)]
  simp

theorem decodeGrid_length (W H B K : ℕ) (mem : ℕ → ℕ) (hK : 1 ≤ K) :
    (decodeGrid W H B K mem).length = H * K := by
  unfold decodeGrid
  split
  · simp [upscale, repeatK_length, rawGrid_length]
  · have hK1 : K = 1 := by omega
    simp [hK1, rawGrid_length]

theorem decodeGrid_rows (W H B K : ℕ) (mem : ℕ → ℕ) (hK : 1 ≤ K) :
    ∀ row ∈ decodeGrid W H B K mem, row.length = W * K := by
  intro row hrow
  unfold decodeGrid at hrow
  split at hrow
  · simp only [upscale, List.mem_map] at hrow
    obtain ⟨r, hr, rfl⟩ := hrow
    have hrg : r ∈ rawGrid W H B mem := by
      obtain ⟨b, hb, hrb⟩ := List.exists_of_mem_flatMap hr
      rwa [List.eq_of_mem_replicate hrb]
    rw [repeatK_length, rawGrid_row_length W H B mem r hrg]
  · have hK1 : K = 1 := by omega
    simp [rawGrid_row_length W H B mem row hrow, hK1]

theorem decodeGrid_getD (W H B K : ℕ) (mem : ℕ → ℕ) (hK : 1 ≤ K)
    (i j : ℕ) (hi : i < H * K) (hj : j < W * K) :
    ((decodeGrid W H B K mem).getD i []).getD j 0 =
      cellVal B mem ((i / K * W + j / K) * B) := by
  have hK0 : 0 < K := hK
  unfold decodeGrid
  split
  · have hglen : (rawGrid W H B mem).length = H := rawGrid_length W H B mem
    have hi2 : i < (repeatK K (rawGrid W H B mem)).length := by
      rw [repeatK_length, hglen]; exact hi
    have houter : (upscale K (rawGrid W H B mem)).getD i [] =
        repeatK K ((rawGrid W H B mem).getD (i / K) []) := by
      unfold upscale
      rw [getD_map_of_lt (repeatK K) _ [] [] i hi2,
        repeatK_getD K _ [] i (by rw [hglen]; exact hi)]
    have hiK : i / K < H := (Nat.div_lt_iff_lt_mul hK0).mpr hi
    have hrowlen : ((rawGrid W H B mem).getD (i / K) []).length = W := by
      apply rawGrid_row_length W H B mem
      rw [List.getD_eq_getElem _ _ (by rw [hglen]; exact hiK)]
      exact List.getElem_mem _
    rw [houter, repeatK_getD K _ 0 j (by rw [hrowlen]; exact hj)]
    exact rawGrid_getD W H B mem (i / K) (j / K) hiK
      ((Nat.div_lt_iff_lt_mul hK0).mpr hj)
  · have hK1 : K = 1 := by omega
    subst hK1
    simpa using rawGrid_getD W H B mem i j (by simpa using hi)
      (by simpa using hj)

theorem runLoopAux_first_fail (steps : ℕ → LoopStep) :
    ∀ (n f i : ℕ), (∀ m, m < n → steps (i + m) = LoopStep.frame false) →
      steps (i + n) = LoopStep.acqFail → n < f →
      runLoopAux steps f i =
        some ((List.replicate n iterTrace).flatten ++ [Event.getBuffer],
          StopReason.acqError) := by
  intro n
  induction n with
  | zero =>
    intro f i h hfail hf
    cases f with
    | zero => omega
    | succ f =>
      have hs : steps i = LoopStep.acqFail := by simpa using hfail
      simp [runLoopAux, hs]
  | succ n ih =>
    intro f i h hfail hf
    cases f with
    | zero => omega
    | succ f =>
      have h0 : steps i = LoopStep.frame false := by
        simpa using h 0 (Nat.succ_pos n)
      have hrec := ih f (i + 1) (fun m hm => by
          have h2 := h (m + 1) (by omega)
          rwa [show i + (m + 1) = i + 1 + m by omega] at h2)
        (by rwa [show i + 1 + n = i + (n + 1) by omega])
        (by omega)
      simp [runLoopAux, h0, hrec, List.replicate_succ]

theorem runLoopAux_events (steps : ℕ → LoopStep) :
    ∀ (f i : ℕ) (tr : List Event) (r : StopReason),
      runLoopAux steps f i = some (tr, r) →
      ∀ e ∈ tr, e = Event.getBuffer ∨ e = Event.requeueBuffer ∨
        e = Event.decodeStep ∨ e = Event.render := by
  intro f
  induction f with
  | zero => intro i tr r h; simp [runLoopAux] at h
  | succ f ih =>
    intro i tr r h
    cases hs : steps i with
    | frame b =>
      cases b with
      | true =>
        simp only [runLoopAux, hs] at h
        obtain ⟨rfl, rfl⟩ : iterTrace = tr ∧ StopReason.escKey = r := by
          simpa using h
        intro e he
        simp only [iterTrace, List.mem_cons, List.not_mem_nil,
          or_false] at he
        rcases he with rfl | rfl | rfl | rfl <;> simp
      | false =>
        simp only [runLoopAux, hs] at h
        rw [Option.map_eq_some'] at h
        obtain ⟨⟨tr2, r2⟩, hrec, heq⟩ := h
        obtain ⟨rfl, rfl⟩ : iterTrace ++ tr2 = tr ∧ r2 = r := by
          simpa using heq
        intro e he
        rcases List.mem_append.mp he with he2 | he2
        · simp only [iterTrace, List.mem_cons, List.not_mem_nil,
            or_false] at he2
          rcases he2 with rfl | rfl | rfl | rfl <;> simp
        · exact ih (i + 1) tr2 r2 hrec e he2
    | acqFail =>
      simp only [runLoopAux, hs] at h
      obtain ⟨rfl, rfl⟩ : [Event.getBuffer] = tr ∧ StopReason.acqError = r := by
        simpa using h
      intro e he
      simp only [List.mem_cons, List.not_mem_nil, or_false] at he
      simp [he]
    | interrupted =>
      simp only [runLoopAux, hs] at h
      obtain ⟨rfl, rfl⟩ : ([] : List Event) = tr ∧ StopReason.interrupt = r := by
        simpa using h
      intro e he
      simp at he

theorem connectAux_events (disc : ℕ → Bool) :
    ∀ (f i : ℕ) (e : Event), e ∈ (connectAux disc f i).1 →
      e = Event.discover ∨ e = Event.probe := by
  intro f
  induction f with
  | zero => intro i e he; simp [connectAux] at he
  | succ f ih =>
    intro i e he
    by_cases hd : disc i
    · simp only [connectAux, hd, if_true] at he
      simp only [List.mem_cons, List.not_mem_nil, or_false] at he
      exact Or.inl he
    · simp only [connectAux, hd, if_false, Bool.false_eq_true,
        List.mem_cons] at he
      rcases he with rfl | rfl | rfl | he
      · exact Or.inl rfl
      · exact Or.inr rfl
      · exact Or.inr rfl
      · exact ih (i + 1) e he

theorem restoreWritesAttempted_subset :
    ∀ (ps : List String) (oks : ℕ → Bool) (i : ℕ) (p : String),
      p ∈ (restoreWritesAttempted ps oks i).1 → p ∈ ps := by
  intro ps
  induction ps with
  | nil => intro oks i p h; simp [restoreWritesAttempted] at h
  | cons q t ih =>
    intro oks i p h
    by_cases hoks : oks i
    · simp only [restoreWritesAttempted, hoks, if_true,
        List.mem_cons] at h
      rcases h with rfl | h
      · exact List.mem_cons_self _ _
      · exact List.mem_cons_of_mem _ (ih oks (i + 1) p h)
    · simp only [restoreWritesAttempted, hoks, if_false,
        Bool.false_eq_true, List.mem_cons, List.not_mem_nil,
        or_false] at h
      simp [h]

theorem restoreWritesAttempted_all_ok :
    ∀ (ps : List String) (oks : ℕ → Bool) (i : ℕ),
      (∀ m, m < ps.length → oks (i + m) = true) →
      restoreWritesAttempted ps oks i = (ps, true) := by
  intro ps
  induction ps with
  | nil => intro oks i _; simp [restoreWritesAttempted]
  | cons q t ih =>
    intro oks i h
    have h0 : oks i = true := by simpa using h 0 (by simp)
    have hrec := ih oks (i + 1) (fun m hm => by
      have h2 := h (m + 1) (by simp; omega)
      rwa [show i + (m + 1) = i + 1 + m by omega] at h2)
    simp [restoreWritesAttempted, h0, hrec]

theorem restoreWritesAttempted_first_fail :
    ∀ (ps : List String) (oks : ℕ → Bool) (i k : ℕ),
      (∀ m, m < k → oks (i + m) = true) → oks (i + k) = false →
      k < ps.length →
      restoreWritesAttempted ps oks i = (ps.take (k + 1), false) := by
  intro ps
  induction ps with
  | nil => intro oks i k h hf hk; simp at hk
  | cons q t ih =>
    intro oks i k h hf hk
    cases k with
    | zero =>
      have h0 : oks i = false := by simpa using hf
      simp [restoreWritesAttempted, h0]
    | succ k =>
      have h0 : oks i = true := by simpa using h 0 (Nat.succ_pos k)
      have hrec := ih oks (i + 1) k (fun m hm => by
          have h2 := h (m + 1) (by omega)
          rwa [show i + (m + 1) = i + 1 + m by omega] at h2)
        (by rwa [show i + 1 + k = i + (k + 1) by omega])
        (by simpa using Nat.lt_of_succ_lt_succ hk)
      simp [restoreWritesAttempted, h0, hrec]

theorem setupTrace_no_restoreCall (emin emax : ℚ) :
    (setupTraceOf emin emax).count Event.restoreCall = 0 := by
  rw [List.count_eq_zero]
  intro h
  simp [setupTraceOf, selected_parameters] at h

theorem setupTrace_no_disconnect (emin emax : ℚ) :
    (setupTraceOf emin emax).count Event.disconnect = 0 := by
  rw [List.count_eq_zero]
  intro h
  simp [setupTraceOf, selected_parameters] at h

theorem connect_no_restoreCall (disc : ℕ → Bool) :
    (create_devices_with_tries_ip disc).1.count Event.restoreCall = 0 := by
  rw [List.count_eq_zero]
  intro h
  rcases connectAux_events disc 6 0 _ h with h2 | h2 <;> simp at h2

theorem connect_no_disconnect (disc : ℕ → Bool) :
    (create_devices_with_tries_ip disc).1.count Event.disconnect = 0 := by
  rw [List.count_eq_zero]
  intro h
  rcases connectAux_events disc 6 0 _ h with h2 | h2 <;> simp at h2

theorem loop_no_restoreCall (steps : ℕ → LoopStep) (f : ℕ)
    (tr : List Event) (r : StopReason)
    (h : runLoop steps f = some (tr, r)) :
    tr.count Event.restoreCall = 0 := by
  rw [List.count_eq_zero]
  intro hm
  rcases runLoopAux_events steps f 0 tr r h _ hm with h2 | h2 | h2 | h2 <;>
    simp at h2

theorem loop_no_disconnect (steps : ℕ → LoopStep) (f : ℕ)
    (tr : List Event) (r : StopReason)
    (h : runLoop steps f = some (tr, r)) :
    tr.count Event.disconnect = 0 := by
  rw [List.count_eq_zero]
  intro hm
  rcases runLoopAux_events steps f 0 tr r h _ hm with h2 | h2 | h2 | h2 <;>
    simp at h2

/-- C3: with a discovery that always fails,
create_devices_with_tries_ip performs exactly 6 discovery attempts with
exactly 2 ping probes after each failed attempt (12 probe calls in
total, hence exactly 2 between each pair of consecutive attempts),
performs no parameter reads or writes, and raises NoDeviceFoundError. -/
theorem C3_retry_bound (disc : ℕ → Bool) (h : ∀ n, disc n = false) :
    create_devices_with_tries_ip disc =
      ((List.replicate 6 [Event.discover, Event.probe, Event.probe]).flatten,
        Except.error ConnectError.NoDeviceFoundError) ∧
    (create_devices_with_tries_ip disc).1.count Event.discover = 6 ∧
    (create_devices_with_tries_ip disc).1.count Event.probe = 12 ∧
    (create_devices_with_tries_ip disc).1.countP
      (fun e => match e with
        | Event.readParam _ => true
        | Event.writeParam _ _ => true
        | _ => false) = 0 := by
  have he : create_devices_with_tries_ip disc =
      ((List.replicate 6 [Event.discover, Event.probe, Event.probe]).flatten,
        Except.error ConnectError.NoDeviceFoundError) := by
    simp [create_devices_with_tries_ip, connectAux, h]
  refine ⟨he, ?_, ?_, ?_⟩ <;> rw [he] <;> decide

/-- Witness for C3 at the always-failing discovery stub. -/
theorem C3_retry_bound_witness :
    create_devices_with_tries_ip (fun _ => false) =
      ((List.replicate 6 [Event.discover, Event.probe, Event.probe]).flatten,
        Except.error ConnectError.NoDeviceFoundError) ∧
    (create_devices_with_tries_ip (fun _ => false)).1.count
      Event.discover = 6 ∧
    (create_devices_with_tries_ip (fun _ => false)).1.count
      Event.probe = 12 ∧
    (create_devices_with_tries_ip (fun _ => false)).1.countP
      (fun e => match e with
        | Event.readParam _ => true
        | Event.writeParam _ _ => true
        | _ => false) = 0 :=
  C3_retry_bound (fun _ => false) (fun _ => rfl)

/-- C5: for a W x H buffer with bytes-per-pixel B and binning factor
K ≥ 1, decode yields a grid of H * K rows each of length W * K whose
(i, j) cell equals the raw cell at (i / K, j / K): every cell is
replicated K times along both axes with its value unchanged; for K = 1
the shape is H x W. -/
theorem C5_decode_shape (W H B K : ℕ) (mem : ℕ → ℕ) (hK : 1 ≤ K) :
    (decodeGrid W H B K mem).length = H * K ∧
    (∀ row ∈ decodeGrid W H B K mem, row.length = W * K) ∧
    (∀ i j, i < H * K → j < W * K →
      ((decodeGrid W H B K mem).getD i []).getD j 0 =
        cellVal B mem ((i / K * W + j / K) * B)) :=
  ⟨decodeGrid_length W H B K mem hK, decodeGrid_rows W H B K mem hK,
    fun i j hi hj => decodeGrid_getD W H B K mem hK i j hi hj⟩

/-- Witness for C5 at a concrete 2 x 1 buffer with binning 4. -/
theorem C5_decode_shape_witness :
    (decodeGrid 2 1 2 4 (fun n => n + 1)).length = 1 * 4 ∧
    ((decodeGrid 2 1 2 4 (fun n => n + 1)).getD 2 []).getD 5 0 =
      cellVal 2 (fun n => n + 1) ((2 / 4 * 2 + 5 / 4) * 2) := by
  have h := C5_decode_shape 2 1 2 4 (fun n => n + 1) (by norm_num)
  exact ⟨h.1, h.2.2 2 5 (by norm_num) (by norm_num)⟩

/-- C6 counterexample: exItem's payload length 3 differs from
width * height * BYTES_PER_PIXEL = 4, yet decode performs no length
check: it reads one byte past the payload and returns the grid
[[513, 1027]] instead of failing with a BufferShapeError. -/
theorem C6_decode_error_counterexample :
    exItem.dataLen ≠ exItem.width * exItem.height * BYTES_PER_PIXEL ∧
    decodeItem BYTES_PER_PIXEL 1 exItem = [[513, 1027]] := by
  exact ⟨by decide, by decide⟩

/-- C6 amended: decode never fails: on a buffer whose payload length
differs from width * height * B it still returns a full
(height * K) x (width * K) grid, reinterpreting width * height * B bytes
at the buffer address; no BufferShapeError path exists. -/
theorem C6_amended_no_length_check (B K : ℕ) (it : RawItem) (hK : 1 ≤ K)
    (hlen : it.dataLen ≠ it.width * it.height * B) :
    (decodeItem B K it).length = it.height * K ∧
    ∀ row ∈ decodeItem B K it, row.length = it.width * K :=
  ⟨decodeGrid_length it.width it.height B K it.mem hK,
    decodeGrid_rows it.width it.height B K it.mem hK⟩

/-- Witness for the amended C6 at the concrete mismatched item. -/
theorem C6_amended_no_length_check_witness :
    (decodeItem BYTES_PER_PIXEL 4 exItem).length = exItem.height * 4 :=
  (C6_amended_no_length_check BYTES_PER_PIXEL 4 exItem (by norm_num)
    (by decide)).1

/-- C7: with device bounds emin ≤ emax, a requested exposure above emax
is applied as emax, below emin as emin (and the warning fires exactly in
those two cases), and an in-range request is applied unchanged; the
clamp is a total function, so an out-of-range request never fails. -/
theorem C7_exposure_clamp (req emin emax : ℚ) (h : emin ≤ emax) :
    (emax < req → clampExposure req emin emax = emax) ∧
    (req < emin → clampExposure req emin emax = emin) ∧
    (emin ≤ req → req ≤ emax → clampExposure req emin emax = req) ∧
    (exposureWarning req emin emax = true ↔ emax < req ∨ req < emin) := by
  unfold clampExposure exposureWarning
  refine ⟨fun h1 => ?_, fun h2 => ?_, fun h3 h4 => ?_, ?_⟩
  · rw [if_pos h1]
  · rw [if_neg (by linarith), if_pos h2]
  · rw [if_neg (by linarith), if_neg (by linarith)]
  · simp

/-- Witness for C7 at concrete requests around the bounds 0 and
100000. -/
theorem C7_exposure_clamp_witness :
    clampExposure 30000000 0 100000 = 100000 ∧
    clampExposure (-5) 0 100000 = 0 ∧
    clampExposure 20000 0 100000 = 20000 := by
  refine ⟨(C7_exposure_clamp 30000000 0 100000 (by norm_num)).1
      (by norm_num),
    (C7_exposure_clamp (-5) 0 100000 (by norm_num)).2.1 (by norm_num),
    (C7_exposure_clamp 20000 0 100000 (by norm_num)).2.2.1 (by norm_num)
      (by norm_num)⟩

/-- C2 counterexample: PixelFormat is written (line 172) before the
snapshot loop runs (lines 176-177), so capture, mutate, restore does not
return PixelFormat to its pre-mutation value Mono8: it ends at the
configured Mono12. -/
theorem C2_snapshot_roundtrip_counterexample :
    "PixelFormat" ∈ selected_parameters ∧
    exState "PixelFormat" = Value.vstr "Mono8" ∧
    roundTripState exState 0 1000000 "PixelFormat" =
      Value.vstr "Mono12" := by
  refine ⟨by decide, rfl, by decide⟩

/-- C2 amended: the snapshot loop reads each selected parameter exactly
once, in the fixed list order, but the PixelFormat write precedes it;
consequently capture, mutate, restore returns every captured parameter
except PixelFormat to its pre-mutation value, while PixelFormat ends at
the configured pixel format. -/
theorem C2_amended_snapshot_roundtrip (s0 : DState) (emin emax : ℚ) :
    (setupTraceOf emin emax).take (selected_parameters.length + 1) =
      Event.writeParam "PixelFormat" (Value.vstr PIXEL_FORMAT)
        :: selected_parameters.map Event.readParam ∧
    (initial_settings s0).map Prod.fst = selected_parameters ∧
    (∀ p ∈ selected_parameters, p ≠ "PixelFormat" →
      roundTripState s0 emin emax p = s0 p) ∧
    roundTripState s0 emin emax "PixelFormat" =
      Value.vstr PIXEL_FORMAT := by
  refine ⟨rfl, rfl, ?_, rfl⟩
  intro p hp hne
  fin_cases hp
  · exact absurd rfl hne
  all_goals rfl

/-- Witness for the amended C2 at a concrete state and parameter. -/
theorem C2_amended_snapshot_roundtrip_witness :
    roundTripState exState 0 1000000 "ExposureTime" =
      exState "ExposureTime" ∧
    roundTripState exState 0 1000000 "PixelFormat" =
      Value.vstr PIXEL_FORMAT := by
  have h := C2_amended_snapshot_roundtrip exState 0 1000000
  exact ⟨h.2.2.1 "ExposureTime" (by decide) (by decide), h.2.2.2⟩

/-- C8 counterexample: when the write of ExposureAuto (the second
restored parameter) fails, restore stops there: the remaining eight
parameters, ExposureTime among them, are never written. -/
theorem C8_restore_abort_counterexample :
    restoreWritesAttempted selected_parameters (fun n => n != 1) 0 =
      (["PixelFormat", "ExposureAuto"], false) ∧
    "ExposureTime" ∈ selected_parameters ∧
    "ExposureTime" ∉ ["PixelFormat", "ExposureAuto"] := by
  decide

/-- C8 amended: a failing write aborts restore instead of being logged
and skipped: if the first k writes succeed and write k fails, exactly
the first k + 1 parameters are attempted and the restore raises,
leaving the remaining parameters unwritten. -/
theorem C8_amended_restore_abort (oks : ℕ → Bool) (k : ℕ)
    (h : ∀ m, m < k → oks m = true) (hf : oks k = false)
    (hk : k < selected_parameters.length) :
    restoreWritesAttempted selected_parameters oks 0 =
      (selected_parameters.take (k + 1), false) :=
  restoreWritesAttempted_first_fail selected_parameters oks 0 k
    (fun m hm => by simpa using h m hm) (by simpa using hf) hk

/-- Witness for the amended C8: the first write fails at once, so only
PixelFormat is attempted. -/
theorem C8_amended_restore_abort_witness :
    restoreWritesAttempted selected_parameters (fun _ => false) 0 =
      (selected_parameters.take 1, false) :=
  C8_amended_restore_abort (fun _ => false) 0
    (fun m hm => absurd hm (by omega)) rfl (by decide)

/-- C9 counterexample: TriggerSource is captured in the snapshot but
never mutated (its write at line 215 is commented out), while
StreamBufferHandlingMode is mutated but not captured: the captured key
set differs from the mutated key set. -/
theorem C9_key_sets_counterexample :
    "TriggerSource" ∈ selected_parameters ∧
    "TriggerSource" ∉ setupWriteNames 0 1000000 ∧
    "StreamBufferHandlingMode" ∈ setupWriteNames 0 1000000 ∧
    "StreamBufferHandlingMode" ∉ selected_parameters := by
  decide

/-- C9 amended: restore only ever writes parameters present in the
snapshot, and the snapshot keys are exactly selected_parameters; but
the mutated key set differs from it: setup writes nine of the ten
captured parameters (all except TriggerSource) plus the three stream
parameters, which are not captured. -/
theorem C9_amended_key_sets (s0 : DState) (emin emax : ℚ)
    (oks : ℕ → Bool) :
    (∀ p ∈ (restoreWritesAttempted selected_parameters oks 0).1,
      p ∈ (initial_settings s0).map Prod.fst) ∧
    (initial_settings s0).map Prod.fst = selected_parameters ∧
    setupWriteNames emin emax =
      ["PixelFormat", "AcquisitionFrameRateEnable",
       "AcquisitionFrameRate", "ExposureAuto", "ExposureTime",
       "TriggerSelector", "TriggerMode", "BinningHorizontal",
       "BinningVertical", "StreamBufferHandlingMode",
       "StreamAutoNegotiatePacketSize", "StreamPacketResendEnable"] ∧
    ∃ p, p ∈ selected_parameters ∧ p ∉ setupWriteNames emin emax := by
  have hnames : setupWriteNames emin emax =
      ["PixelFormat", "AcquisitionFrameRateEnable",
       "AcquisitionFrameRate", "ExposureAuto", "ExposureTime",
       "TriggerSelector", "TriggerMode", "BinningHorizontal",
       "BinningVertical", "StreamBufferHandlingMode",
       "StreamAutoNegotiatePacketSize", "StreamPacketResendEnable"] := rfl
  refine ⟨?_, rfl, hnames, "TriggerSource", by decide, ?_⟩
  · intro p hp
    exact restoreWritesAttempted_subset selected_parameters oks 0 p hp
  · rw [hnames]; decide

/-- Witness for the amended C9 at concrete values. -/
theorem C9_amended_key_sets_witness :
    "PixelFormat" ∈ (initial_settings exState).map Prod.fst ∧
    setupWriteNames 0 1000000 =
      ["PixelFormat", "AcquisitionFrameRateEnable",
       "AcquisitionFrameRate", "ExposureAuto", "ExposureTime",
       "TriggerSelector", "TriggerMode", "BinningHorizontal",
       "BinningVertical", "StreamBufferHandlingMode",
       "StreamAutoNegotiatePacketSize", "StreamPacketResendEnable"] := by
  have h := C9_amended_key_sets exState 0 1000000 (fun _ => true)
  exact ⟨h.1 "PixelFormat" (by decide), h.2.2.1⟩

/-- C4 counterexample: an acquisition failure on the very first
iteration ends the loop with reason acqError instead of being skipped:
no further iteration runs even though fuel remains, and the session
moves on to teardown. -/
theorem C4_loop_error_counterexample :
    runLoop (fun _ => LoopStep.acqFail) 5 =
      some ([Event.getBuffer], StopReason.acqError) ∧
    mainRun (fun _ => true) none 0 1000000 (fun _ => LoopStep.acqFail) 5
        (fun _ => true) =
      some ([Event.discover] ++ setupTraceOf 0 1000000
        ++ [Event.getBuffer] ++ teardownTrace (fun _ => true)) := by
  exact ⟨rfl, rfl⟩

/-- C4 amended: a per-iteration acquire error is not caught inside the
loop: if the first n iterations complete normally and get_buffer fails
on iteration n, the loop terminates there with reason acqError, after
which the session proceeds to teardown. -/
theorem C4_amended_loop_error (steps : ℕ → LoopStep) (n fuel : ℕ)
    (h : ∀ m, m < n → steps m = LoopStep.frame false)
    (hf : steps n = LoopStep.acqFail) (hn : n < fuel) :
    runLoop steps fuel =
      some ((List.replicate n iterTrace).flatten ++ [Event.getBuffer],
        StopReason.acqError) :=
  runLoopAux_first_fail steps n fuel 0
    (fun m hm => by simpa using h m hm) (by simpa using hf) hn

/-- Witness for the amended C4: two clean iterations, then a failing
acquire on iteration 2. -/
theorem C4_amended_loop_error_witness :
    runLoop
        (fun m => if m < 2 then LoopStep.frame false else LoopStep.acqFail)
        9 =
      some ((List.replicate 2 iterTrace).flatten ++ [Event.getBuffer],
        StopReason.acqError) :=
  C4_amended_loop_error _ 2 9 (fun m hm => by simp [hm]) (by simp)
    (by omega)

/-- C10: when setup (called at line 54, before the try block of line
60) raises after a successful connect, the exception propagates without
entering the guaranteed-teardown construct: the resulting trace
contains no restore call and no disconnect. -/
theorem C10_setup_failure_no_teardown (disc : ℕ → Bool) (k : ℕ)
    (emin emax : ℚ) (steps : ℕ → LoopStep) (fuel : ℕ) (roks : ℕ → Bool)
    (tr : List Event)
    (hconn : (create_devices_with_tries_ip disc).2 = Except.ok ())
    (hrun : mainRun disc (some k) emin emax steps fuel roks = some tr) :
    tr.count Event.restoreCall = 0 ∧ tr.count Event.disconnect = 0 := by
  rcases hcd : create_devices_with_tries_ip disc with ⟨ct, res⟩
  rw [hcd] at hconn
  cases res with
  | error e => simp at hconn
  | ok u =>
    have hmr : mainRun disc (some k) emin emax steps fuel roks =
        some (ct ++ (setupTraceOf emin emax).take k) := by
      unfold mainRun
      rw [hcd]
    rw [hmr] at hrun
    have htr : tr = ct ++ (setupTraceOf emin emax).take k := by
      injection hrun with h2
      exact h2.symm
    subst htr
    have hct_rc : ct.count Event.restoreCall = 0 := by
      have h0 := connect_no_restoreCall disc
      rwa [hcd] at h0
    have hct_dc : ct.count Event.disconnect = 0 := by
      have h0 := connect_no_disconnect disc
      rwa [hcd] at h0
    have htk_rc : ((setupTraceOf emin emax).take k).count
        Event.restoreCall = 0 := by
      have h1 := List.Sublist.count_le
        (List.take_sublist k (setupTraceOf emin emax)) Event.restoreCall
      rw [setupTrace_no_restoreCall emin emax] at h1
      omega
    have htk_dc : ((setupTraceOf emin emax).take k).count
        Event.disconnect = 0 := by
      have h1 := List.Sublist.count_le
        (List.take_sublist k (setupTraceOf emin emax)) Event.disconnect
      rw [setupTrace_no_disconnect emin emax] at h1
      omega
    rw [List.count_append, List.count_append, hct_rc, hct_dc, htk_rc,
      htk_dc]
    exact ⟨rfl, rfl⟩

/-- Witness for C10: connect succeeds at once and setup raises after
its third event. -/
theorem C10_setup_failure_no_teardown_witness :
    ([Event.discover] ++ (setupTraceOf 0 1000000).take 3).count
      Event.restoreCall = 0 ∧
    ([Event.discover] ++ (setupTraceOf 0 1000000).take 3).count
      Event.disconnect = 0 :=
  C10_setup_failure_no_teardown (fun _ => true) 3 0 1000000
    (fun _ => LoopStep.frame true) 1 (fun _ => true)
    ([Event.discover] ++ (setupTraceOf 0 1000000).take 3) rfl rfl

/-- C1 counterexample: the loop is entered and terminates normally via
the ESC key, and restore is invoked exactly once after it, but its
first write fails: the exception propagates out of the finally block,
so disconnect is never invoked. -/
theorem C1_teardown_counterexample :
    mainRun (fun _ => true) none 0 1000000 (fun _ => LoopStep.frame true)
        1 (fun _ => false) = some trBad ∧
    trBad.count Event.restoreCall = 1 ∧
    trBad.count Event.disconnect = 0 := by
  refine ⟨rfl, by decide, by decide⟩

/-- C1 amended: whenever the loop is entered and terminates (ESC key,
exception inside the loop, or external interrupt), the finally block
invokes restore exactly once, with no disconnect before it; disconnect
is then invoked exactly once provided every restore write succeeds (a
restore failure propagates out of the finally block and skips the
disconnect). -/
theorem C1_amended_teardown (disc : ℕ → Bool) (emin emax : ℚ)
    (steps : ℕ → LoopStep) (fuel : ℕ) (roks : ℕ → Bool)
    (tr ltr : List Event) (r : StopReason)
    (hconn : (create_devices_with_tries_ip disc).2 = Except.ok ())
    (hloop : runLoop steps fuel = some (ltr, r))
    (hrun : mainRun disc none emin emax steps fuel roks = some tr) :
    tr.count Event.restoreCall = 1 ∧
    (∃ pre post, tr = pre ++ Event.restoreCall :: post ∧
      pre.count Event.restoreCall = 0 ∧
      pre.count Event.disconnect = 0) ∧
    ((∀ i, i < selected_parameters.length → roks i = true) →
      tr.count Event.disconnect = 1) := by
  rcases hcd : create_devices_with_tries_ip disc with ⟨ct, res⟩
  rw [hcd] at hconn
  cases res with
  | error e => simp at hconn
  | ok u =>
    have hmr : mainRun disc none emin emax steps fuel roks =
        some (ct ++ setupTraceOf emin emax ++ ltr
          ++ teardownTrace roks) := by
      unfold mainRun
      rw [hcd, hloop]
    rw [hmr] at hrun
    have htr : tr = ct ++ setupTraceOf emin emax ++ ltr
        ++ teardownTrace roks := by
      injection hrun with h2
      exact h2.symm
    subst htr
    have hct_rc : ct.count Event.restoreCall = 0 := by
      have h0 := connect_no_restoreCall disc
      rwa [hcd] at h0
    have hct_dc : ct.count Event.disconnect = 0 := by
      have h0 := connect_no_disconnect disc
      rwa [hcd] at h0
    have hlt_rc : ltr.count Event.restoreCall = 0 :=
      loop_no_restoreCall steps fuel ltr r hloop
    have hlt_dc : ltr.count Event.disconnect = 0 :=
      loop_no_disconnect steps fuel ltr r hloop
    rcases hra : restoreWritesAttempted selected_parameters roks 0
      with ⟨ws, okb⟩
    have htd : teardownTrace roks =
        Event.stopStream :: Event.restoreCall ::
          (ws.map Event.restoreWrite ++
            (if okb then [Event.destroyWindows, Event.disconnect]
              else [])) := by
      unfold teardownTrace
      rw [hra]
    have hws_rc : (ws.map Event.restoreWrite).count
        Event.restoreCall = 0 := by
      rw [List.count_eq_zero]
      intro hm
      obtain ⟨p, _, hp⟩ := List.mem_map.mp hm
      simp at hp
    have hws_dc : (ws.map Event.restoreWrite).count
        Event.disconnect = 0 := by
      rw [List.count_eq_zero]
      intro hm
      obtain ⟨p, _, hp⟩ := List.mem_map.mp hm
      simp at hp
    have hif_rc : (if okb then [Event.destroyWindows, Event.disconnect]
        else ([] : List Event)).count Event.restoreCall = 0 := by
      split <;> decide
    refine ⟨?_, ?_, ?_⟩
    · rw [htd]
      simp [List.count_append, List.count_cons, hct_rc, hlt_rc, hws_rc,
        setupTrace_no_restoreCall emin emax, hif_rc]
    · refine ⟨ct ++ setupTraceOf emin emax ++ ltr ++ [Event.stopStream],
        ws.map Event.restoreWrite ++
          (if okb then [Event.destroyWindows, Event.disconnect]
            else []), ?_, ?_, ?_⟩
      · rw [htd]
        simp
      · simp [List.count_append, List.count_cons, hct_rc, hlt_rc,
          setupTrace_no_restoreCall emin emax]
      · simp [List.count_append, List.count_cons, hct_dc, hlt_dc,
          setupTrace_no_disconnect emin emax]
    · intro hall
      have h2 := restoreWritesAttempted_all_ok selected_parameters roks 0
        (fun m hm => by simpa using hall m hm)
      rw [hra] at h2
      injection h2 with hws hok
      subst hws
      subst hok
      rw [htd]
      simp [List.count_append, List.count_cons, hct_dc, hlt_dc, hws_dc,
        setupTrace_no_disconnect emin emax]

/-- Witness for the amended C1 at a run whose restore writes all
succeed. -/
theorem C1_amended_teardown_witness :
    trGood.count Event.restoreCall = 1 ∧
    trGood.count Event.disconnect = 1 := by
  have h := C1_amended_teardown (fun _ => true) 0 1000000
    (fun _ => LoopStep.frame true) 1 (fun _ => true) trGood iterTrace
    StopReason.escKey rfl rfl rfl
  exact ⟨h.1, h.2.2 (fun i hi => rfl)⟩

end LucidLive
